import Mathlib

/-!
# Verification of the DataFaker schema/generation engine

Shallow embedding of `src/data_engine/{datatypes,column_schema,table_schema}.py`.

Python's ambient randomness is made explicit: every call of `random.random()`
becomes a rational draw `q` (the caller quantifies over all `q` in `[0,1)`),
and the entropy consumed by a variant's value generator becomes an `Entropy`
record of streams.  Optional Python arguments are `Option`s, with `none`
standing for an explicitly passed `None`; an *omitted* argument is translated
at each call site into the Python default value of that parameter, exactly as
the interpreter would substitute it.  `ValueError` / `TypeError` become
`Except String`.
-/

namespace DataFaker

/-- Entropy feeding a single value-generator call: `nat` models the raw
integer draws behind `random.randint` / `random.choice` / `random.choices`,
`flt` the float draws behind `random.uniform`. -/
structure Entropy where
  nat : Nat → Nat
  flt : Nat → ℚ

/-- A generated cell value (before null suppression). -/
inductive Value where
  | str (s : String)
  | int (n : Int)
  | float (q : ℚ)
  | bool (b : Bool)
deriving Repr, DecidableEq

/-- The closed set of type variants of `datatypes.py`, each carrying the
parameters its `__init__` stores (`self.length`, `self.min_value` /
`self.max_value`, `self.categories`). -/
inductive Datatype where
  | str (length : Int)
  | int (min_value max_value : Int)
  | float (min_value max_value : ℚ)
  | category (categories : List String)
  | boolean
deriving Repr, DecidableEq

/-- `string.ascii_letters + string.digits`, the alphabet of
`StringType.generator_rule`. -/
def asciiAlphanum : List Char :=
  "abcdefghijklmnopqrstuvwxyzABCDEFGHIJKLMNOPQRSTUVWXYZ0123456789".toList

/-- `StringType.__init__(self, length=10)`: `None` is replaced by 10, a
non-positive length raises `ValueError`. -/
def stringInit (length : Option Int) : Except String Datatype :=
  let l := length.getD 10
  if l ≤ 0 then .error "Length must be a positive integer."
  else .ok (.str l)

/-- `IntegerType.__init__(self, min_value=0, max_value=100)`: the branches on
`None` arguments, the `min_value >= max_value` check, then the `int()` casts
(identity here, both are already integers). -/
def integerInit (min_value max_value : Option Int) : Except String Datatype :=
  let p : Int × Int :=
    match min_value, max_value with
    | none, none => (0, 100)
    | some mn, none => (mn, max (100 + mn) 100)
    | none, some mx => (min (mx - 100) 0, mx)
    | some mn, some mx => (mn, mx)
  if p.1 ≥ p.2 then .error "min_value must be less than max_value."
  else .ok (.int p.1 p.2)

/-- `FloatType.__init__(self, min_value=0.0, max_value=100.0)`: same
`None`-defaulting branches as `IntegerType`, but no bound validation. -/
def floatInit (min_value max_value : Option ℚ) : Except String Datatype :=
  let p : ℚ × ℚ :=
    match min_value, max_value with
    | none, none => (0, 100)
    | some mn, none => (mn, max (100 + mn) 100)
    | none, some mx => (min (mx - 100) 0, mx)
    | some mn, some mx => (mn, mx)
  .ok (.float p.1 p.2)

/-- The default value of the `categories` parameter of
`CategoryType.__init__(self, categories=["A", "B", "C"])`, substituted by the
interpreter whenever the argument is omitted. -/
def categoryDefault : List String := ["A", "B", "C"]

/-- `CategoryType.__init__`: `None` or an empty list raises `ValueError`;
otherwise `list(set(categories))` is stored.  Python's set iteration order is
arbitrary, so the stored list is modelled up to that order by `List.dedup`
(same underlying set, no duplicates). -/
def categoryInit (categories : Option (List String)) : Except String Datatype :=
  match categories with
  | none => .error "Categories cannot be None."
  | some cs =>
      if cs.length = 0 then .error "Categories cannot be None."
      else .ok (.category cs.dedup)

/-- `BooleanType.__init__(self)`: no parameters, never fails. -/
def booleanInit : Except String Datatype := .ok .boolean

/-- Python rounds `random.uniform`'s result to two fractional digits
(`round(x, 2)`; ties-to-even on floats, modelled as nearest). -/
def round2 (x : ℚ) : ℚ := (round (x * 100) : ℤ) / 100

/-- The `generator_rule` method of each variant.  `random.randint(a, b)`
returns a member of `[a, b]`, modelled as `a` plus the draw reduced mod the
range size; `random.choice(xs)` as indexing by the draw mod the length;
`random.choices(alphabet, k=n)` as `n` independent such draws.
`CategoryType.generator_rule` really returns `None` on an empty category
list (`random.choice(self.categories) if self.categories else None`), hence
the `Option`. -/
def Datatype.genValue : Datatype → Entropy → Option Value
  | .str length, e =>
      some (.str (String.mk ((List.range length.toNat).map
        (fun i => asciiAlphanum.getD (e.nat i % asciiAlphanum.length) 'a'))))
  | .int mn mx, e =>
      some (.int (mn + (↑(e.nat 0 % (mx - mn + 1).toNat) : ℤ)))
  | .float mn mx, e =>
      some (.float (round2 (mn + e.flt 0 * (mx - mn))))
  | .category cs, e =>
      if cs.isEmpty then none
      else some (.str (cs.getD (e.nat 0 % cs.length) ""))
  | .boolean, e =>
      some (.bool (e.nat 0 % 2 = 0))

/-! ## Column schema (`column_schema.py`) -/

/-- The `**datatype_kwargs` that reach `ColumnSchema.__init__`.  An outer
`none` means the key was not passed at all; `some v` means the key was passed
with value `v`, where the inner `none` is Python's `None`.  These five keys
are the ones any caller in the repository supplies (`from_dataframe` passes
`length`, `domain`, `max_value`, `min_value`; direct construction may pass
`categories`). -/
structure Kwargs where
  length : Option (Option Int) := none
  categories : Option (Option (List String)) := none
  domain : Option (Option (List String)) := none
  min_value : Option (Option Int) := none
  max_value : Option (Option Int) := none

/-- `Datatype.get_class(tag)` followed by `datatype_class(**filtered_kwargs)`:
the kwargs are filtered to the parameter names of the chosen class's
`__init__` (`inspect.signature(...).parameters`), every other key is silently
dropped — in particular `domain` matches no constructor, and `CategoryType`'s
parameter is named `categories`.  A key that survives the filter is passed as
is; a key that does not appear leaves the Python default in force.  An
unregistered tag raises `ValueError` inside `get_class`. -/
def buildDatatype (tag : String) (kw : Kwargs) : Except String Datatype :=
  if tag = "string" then
    stringInit (kw.length.getD none)
  else if tag = "int" ∨ tag = "integer" then
    integerInit (kw.min_value.getD (some 0)) (kw.max_value.getD (some 100))
  else if tag = "float" then
    floatInit ((kw.min_value.getD (some 0)).map (fun n => (n : ℚ)))
      ((kw.max_value.getD (some 100)).map (fun n => (n : ℚ)))
  else if tag = "category" then
    categoryInit (kw.categories.getD (some categoryDefault))
  else if tag = "boolean" then
    booleanInit
  else .error ("Unknown datatype: " ++ tag)

/-- ASCII lowercasing of one character, the effect of Python's
`str.lower()` on the ASCII tags used by the registry. -/
def lowerChar (c : Char) : Char :=
  if 'A' ≤ c ∧ c ≤ 'Z' then Char.ofNat (c.toNat + 32) else c

/-- `datatype.lower()` (the registry tags are plain ASCII). -/
def lowerString (s : String) : String := String.mk (s.data.map lowerChar)

/-- The `datatype` argument of `ColumnSchema.__init__`: absent / `None`, a
string tag, or an already constructed variant instance. -/
inductive DatatypeArg where
  | absent
  | tag (s : String)
  | dt (d : Datatype)

/-- One column of a table: `name`, the resolved `datatype` variant,
`completeness`, and the optional `generator_rule` override (a Faker-style
zero-argument value producer, here a function of its entropy). -/
structure ColumnSchema where
  name : String
  datatype : Datatype
  completeness : ℚ
  generator_rule : Option (Entropy → Value)

/-- `ColumnSchema.__init__`: `datatype is None` yields `StringType()`
(length 10); a string tag is lowercased, resolved and constructed from the
filtered kwargs; a variant instance is stored as is.  A `completeness` that
is `None`/NaN (both collapsed into `none` here) is normalised to `1.0`; no
range check is performed on it. -/
def ColumnSchema.init (name : String) (datatype : DatatypeArg)
    (completeness : Option ℚ) (generator_rule : Option (Entropy → Value))
    (kw : Kwargs) : Except String ColumnSchema :=
  match (match datatype with
    | .absent => stringInit (some 10)
    | .tag s => buildDatatype (lowerString s) kw
    | .dt d => Except.ok d) with
  | .error msg => .error msg
  | .ok dt =>
      .ok { name, datatype := dt, completeness := completeness.getD 1,
            generator_rule }

/-- `ColumnSchema.generate`: `q` is this call's `random.random()` draw and
`e` the entropy of the value generator.  The null branch fires iff
`q > completeness` and `completeness < 1.0`; otherwise the override, when
present, produces the value, else the variant's `generator_rule`. -/
def ColumnSchema.generate (c : ColumnSchema) (q : ℚ) (e : Entropy) :
    Option Value :=
  if q > c.completeness ∧ c.completeness < 1 then none
  else
    match c.generator_rule with
    | some f => some (f e)
    | none => c.datatype.genValue e

/-! ## Table schema (`table_schema.py`) -/

/-- `TableSchema.__init__(self, columns=None)`: the column list may be
absent (`None`) or a list.  All methods below are pure: a mutating Python
method is modelled as returning the updated receiver, and `select_columns`,
which mutates nothing, returns only its fresh result. -/
structure TableSchema where
  columns : Option (List ColumnSchema)

/-- One row of `TableSchema.generate`: the comprehension
`[c.generate() for c in self.columns]`, column `j` consuming the draws
`q j` / `e j`. -/
def generateRow (cols : List ColumnSchema) (q : Nat → ℚ) (e : Nat → Entropy) :
    List (Option Value) :=
  match cols with
  | [] => []
  | c :: rest =>
      c.generate (q 0) (e 0) ::
        generateRow rest (fun j => q (j + 1)) (fun j => e (j + 1))

/-- `TableSchema.generate(num_rows)`: raises when `self.columns is None`;
otherwise builds `num_rows` rows, each by calling every column's
`generate()` in schema order, and returns the column-name header together
with the rows.  `q i j` / `e i j` are the draws consumed by row `i`,
column `j`. -/
def TableSchema.generate (t : TableSchema) (num_rows : Nat)
    (q : Nat → Nat → ℚ) (e : Nat → Nat → Entropy) :
    Except String (List String × List (List (Option Value))) :=
  match t.columns with
  | none => .error "No columns defined in the table schema."
  | some cols =>
      .ok (cols.map (fun c => c.name),
        (List.range num_rows).map (fun i => generateRow cols (q i) (e i)))

/-- `TableSchema.add_column` with a `ColumnSchema` argument: initialises the
list when absent, then appends. -/
def TableSchema.add_column (t : TableSchema) (c : ColumnSchema) :
    TableSchema :=
  ⟨some ((t.columns.getD []) ++ [c])⟩

/-- `TableSchema.remove_column(name)`: keeps the columns whose name differs;
no-op when the list is absent. -/
def TableSchema.remove_column (t : TableSchema) (name : String) :
    TableSchema :=
  match t.columns with
  | none => t
  | some cols => ⟨some (cols.filter (fun c => c.name ≠ name))⟩

/-- `TableSchema.select_columns(column_names)`: when `self.columns is None`
the local `cols = []` of the first branch is immediately shadowed by the list
comprehension, which iterates `self.columns` — iterating `None` raises
`TypeError`.  Otherwise a new `TableSchema` is built from the matching
columns in order. -/
def TableSchema.select_columns (t : TableSchema) (column_names : List String) :
    Except String TableSchema :=
  match t.columns with
  | none => .error "TypeError: 'NoneType' object is not iterable"
  | some cols =>
      .ok ⟨some (cols.filter (fun c => column_names.contains c.name))⟩

/-- One row of the tabular configuration consumed by `from_dataframe`.  The
scalar cells are given after the normalisation `v if pd.notna(v) else None`
(a missing/NaN cell is `none`; `pd.notna` of a scalar is a plain bool, so
that normalisation is total on them).  The `domain` cell is the raw cell: a
missing/NaN cell is `none`, a list-valued cell is `some` the list, and its
normalisation — which can raise — is applied by `notnaListCell` below. -/
structure ConfigRow where
  name : String
  datatype : Option String
  length : Option Int
  domain : Option (List String)
  max : Option Int
  min : Option Int
  completeness : Option ℚ

/-- The normalisation `v if pd.notna(v) else None` applied to the `domain`
cell, the one cell that can hold a list.  On a list, `pd.notna` returns the
elementwise boolean array, and Python's truth test of an ndarray raises
`ValueError` unless the array has exactly one element; a one-element array
over a string label is `[True]`, so the singleton cell is kept.  (The
empty-array truth test also raises on current NumPy; very old NumPy instead
warned and yielded `False`.  No claim involves an empty list cell.) -/
def notnaListCell (cell : Option (List String)) :
    Except String (Option (List String)) :=
  match cell with
  | none => .ok none
  | some ls =>
      if ls.length = 1 then .ok (some ls)
      else if ls.length = 0 then
        .error "ValueError: The truth value of an empty array is ambiguous."
      else
        .error "ValueError: The truth value of an array with more than one element is ambiguous. Use a.any() or a.all()"

/-- `TableSchema.from_dataframe(df)`: each row is first normalised cell by
cell (`{k: (v if pd.notna(v) else None) for k, v in r.items()}` — the
`domain` cell's truth test can raise, see `notnaListCell`), then one
`ColumnSchema` is built per row, called as `ColumnSchema(name=…,
datatype=…, length=…, domain=…, max_value=…, min_value=…,
completeness=…)` — so the kwargs `length`, `domain`, `max_value`,
`min_value` are always present (possibly `None`), and no `categories` key
is ever passed. -/
def TableSchema.from_dataframe (rows : List ConfigRow) :
    Except String TableSchema := do
  let cols ← rows.mapM (fun r => do
    let dom ← notnaListCell r.domain
    ColumnSchema.init r.name
      (match r.datatype with | none => .absent | some s => .tag s)
      r.completeness none
      { length := some r.length, domain := some dom,
        min_value := some r.min, max_value := some r.max })
  Except.ok ⟨some cols⟩

/-! ## Shared helper facts and concrete fixtures -/

/-- A fixed entropy source for concrete evaluations. -/
def zeroEntropy : Entropy := ⟨fun _ => 0, fun _ => 0⟩

/-- A column whose datatype was constructed by one of the `*Init` smart
constructors never carries an empty category list (CategoryType refuses
`None` and empty lists). -/
def Datatype.NoEmptyCategories (d : Datatype) : Prop :=
  ∀ cs, d = Datatype.category cs → cs ≠ []

theorem genValue_isSome_of_noEmptyCategories (d : Datatype) (e : Entropy)
    (h : d.NoEmptyCategories) : (d.genValue e).isSome := by
  cases d with
  | category cs =>
      have hcs : cs ≠ [] := h cs rfl
      simp [Datatype.genValue, List.isEmpty_iff, hcs]
  | str length => simp [Datatype.genValue]
  | int mn mx => simp [Datatype.genValue]
  | float mn mx => simp [Datatype.genValue]
  | boolean => simp [Datatype.genValue]

/-- A concrete column with `completeness = 0` and no override. -/
def c1Column : ColumnSchema := ⟨"x", .boolean, 0, none⟩

/-- **C1** (counterexample): the claim says that with `completeness = 0.0`
*every* call returns the null marker, for every draw in `[0,1)`.  But the
null branch requires `random.random() > completeness` *strictly*, so the
draw `0.0` (a member of `[0,1)`) produces a generated value instead. -/
theorem c1_counterexample :
    c1Column.generate 0 zeroEntropy = some (Value.bool true) := by decide

/-- **C1** (amended): with `completeness = 0.0` every call whose draw is
strictly positive returns the null marker (the draw `0.0` itself does not);
with `completeness = 1.0` no call ever returns the null marker, for every
draw. -/
theorem c1_completeness_boundary (c : ColumnSchema) (q : ℚ) (e : Entropy)
    (hcat : c.datatype.NoEmptyCategories) :
    (c.completeness = 0 → 0 < q → c.generate q e = none) ∧
    (c.completeness = 1 → c.generate q e ≠ none) := by
  constructor
  · intro h0 hq
    simp [ColumnSchema.generate, h0, hq]
  · intro h1
    have hcond : ¬(q > c.completeness ∧ c.completeness < 1) := by
      rw [h1]; simp
    rw [ColumnSchema.generate, if_neg hcond]
    cases hg : c.generator_rule with
    | some f => simp
    | none =>
        have hs := genValue_isSome_of_noEmptyCategories c.datatype e hcat
        rw [Option.isSome_iff_exists] at hs
        obtain ⟨v, hv⟩ := hs
        simp [hv]

/-- **C1** witness: the amended theorem applied to the concrete
zero-completeness column at the draw `1/2`. -/
theorem c1_completeness_boundary_witness :
    c1Column.generate (1/2) zeroEntropy = none :=
  (c1_completeness_boundary c1Column (1/2) zeroEntropy
    (fun _ h => nomatch h)).1 rfl (by norm_num)

/-- **C2**: `generate` returns the null marker exactly when
`completeness < 1.0` and the draw exceeds `completeness`; otherwise the
override's result when an override is present, else the variant's
generation rule.  (The hypothesis excludes the unconstructible empty
category list, whose dead `if self.categories else None` branch would
return a null without the completeness condition.) -/
theorem c2_generate_algorithm (c : ColumnSchema) (q : ℚ) (e : Entropy)
    (hcat : c.datatype.NoEmptyCategories) :
    (c.generate q e = none ↔ (c.completeness < 1 ∧ q > c.completeness)) ∧
    (∀ f, c.generator_rule = some f →
      ¬(c.completeness < 1 ∧ q > c.completeness) →
      c.generate q e = some (f e)) ∧
    (c.generator_rule = none →
      ¬(c.completeness < 1 ∧ q > c.completeness) →
      c.generate q e = c.datatype.genValue e) := by
  by_cases hcond : q > c.completeness ∧ c.completeness < 1
  · refine ⟨?_, ?_, ?_⟩
    · rw [ColumnSchema.generate, if_pos hcond]
      simpa using ⟨hcond.2, hcond.1⟩
    · intro f _ hn; exact absurd ⟨hcond.2, hcond.1⟩ hn
    · intro _ hn; exact absurd ⟨hcond.2, hcond.1⟩ hn
  · have hcond' : ¬(c.completeness < 1 ∧ q > c.completeness) := by tauto
    rw [ColumnSchema.generate, if_neg hcond]
    refine ⟨?_, ?_, ?_⟩
    · cases hg : c.generator_rule with
      | some f => simp [hcond']
      | none =>
          have hs := genValue_isSome_of_noEmptyCategories c.datatype e hcat
          rw [Option.isSome_iff_exists] at hs
          obtain ⟨v, hv⟩ := hs
          simp [hv, hcond']
    · intro f hf _; rw [hf]
    · intro hf _; rw [hf]

/-- **C2** witness: the characterisation applied to the concrete
zero-completeness boolean column at the draw `1/2`. -/
theorem c2_generate_algorithm_witness :
    c1Column.generate (1/2) zeroEntropy = none ∨
      c1Column.generate (1/2) zeroEntropy = c1Column.datatype.genValue zeroEntropy :=
  Or.inl ((c2_generate_algorithm c1Column (1/2) zeroEntropy
    (fun _ h => nomatch h)).1.mpr (by norm_num [c1Column]))

/-- **C3** (counterexample): the claim predicts that `min_value = -50` alone
yields `max_value = -50 + 100 = 50`; the code computes
`max(100 + min_value, 100) = 100`. -/
theorem c3_counterexample :
    integerInit (some (-50)) none = .ok (.int (-50) 100) := rfl

/-- **C3** (amended): when exactly one bound is given (the other passed as
`None`), the missing bound is *clamped*: only `min_value = a` gives
`max_value = max(a + 100, 100)`; only `max_value = b` gives
`min_value = min(b - 100, 0)`.  (An argument omitted outright instead takes
the plain Python default `0` / `100`.)  Construction always succeeds on
these one-sided calls, since the defaulted pair always satisfies
`min_value < max_value`. -/
theorem c3_one_sided_defaults (a b : ℤ) :
    integerInit (some a) none = .ok (.int a (max (100 + a) 100)) ∧
    integerInit none (some b) = .ok (.int (min (b - 100) 0) b) := by
  constructor
  · have h : ¬(a ≥ max (100 + a) 100) := by omega
    simp [integerInit, h]
  · have h : ¬(min (b - 100) 0 ≥ b) := by omega
    simp [integerInit, h]

/-- **C4** (counterexample): the claim says Category construction fails when
the categories collection is *absent (not supplied)*.  But
`CategoryType.__init__` has the default `categories=["A", "B", "C"]`, so the
omitted-argument call succeeds, storing that default. -/
theorem c4_counterexample :
    categoryInit (some categoryDefault) = .ok (.category ["A", "B", "C"]) :=
  rfl

/-- **C4** (amended): Category construction fails with the invalid-parameter
error exactly when the categories argument is `None` or empty; an argument
omitted outright falls back to the default `["A", "B", "C"]` and succeeds.
On success the stored collection is the deduplication of the input labels:
duplicate-free and with the same members. -/
theorem c4_category_construction (categories : Option (List String)) :
    ((categories = none ∨ categories = some []) →
      categoryInit categories = .error "Categories cannot be None.") ∧
    (∀ cs, categories = some cs → cs ≠ [] →
      categoryInit categories = .ok (.category cs.dedup) ∧
      cs.dedup.Nodup ∧ (∀ x, x ∈ cs.dedup ↔ x ∈ cs)) := by
  constructor
  · rintro (rfl | rfl) <;> simp [categoryInit]
  · rintro cs rfl hne
    refine ⟨?_, List.nodup_dedup cs, fun x => List.mem_dedup⟩
    have hl : cs.length ≠ 0 := by simpa [List.length_eq_zero] using hne
    simp [categoryInit, hl]

/-- **C4** witness: the amended theorem applied to the duplicated input
`["USA", "USA", "Canada"]`, whose stored form is `["USA", "Canada"]`. -/
theorem c4_category_construction_witness :
    categoryInit (some ["USA", "USA", "Canada"]) =
      .ok (.category ["USA", "Canada"]) := by
  have h := (c4_category_construction (some ["USA", "USA", "Canada"])).2
    ["USA", "USA", "Canada"] rfl (by decide)
  exact h.1

/-- A concrete column named `X`, used to reach an empty column list via
`remove_column`. -/
def c5Column : ColumnSchema := ⟨"X", .boolean, 1, none⟩

/-- **C5** (code bug): `TableSchema.generate` only raises when
`self.columns is None`.  A schema whose list became *empty* — here by
`remove_column` deleting the only column — passes the check and yields a
0-column table with `num_rows` rows, although the method's own docstring
("Raises ValueError: If no columns are defined") and the spec promise an
empty-schema error. -/
theorem c5_empty_schema_not_detected (q : Nat → Nat → ℚ)
    (e : Nat → Nat → Entropy) :
    ((TableSchema.mk (some [c5Column])).remove_column "X").columns =
      some [] ∧
    ((TableSchema.mk (some [c5Column])).remove_column "X").generate 5 q e =
      .ok ([], [[], [], [], [], []]) :=
  ⟨rfl, rfl⟩

/-- The `Age` configuration row of the round-trip property. -/
def ageConfigRow : ConfigRow :=
  ⟨"Age", some "integer", none, none, some 65, some 18, some 1⟩

/-- The `Email` configuration row of the round-trip property. -/
def emailConfigRow : ConfigRow :=
  ⟨"Email", some "string", none, none, none, none, some (1/4)⟩

/-- The round-trip tabular configuration. -/
def c6Config : List ConfigRow := [ageConfigRow, emailConfigRow]

/-- The column `from_dataframe` builds from `ageConfigRow`. -/
def ageColumn : ColumnSchema := ⟨"Age", .int 18 65, 1, none⟩

/-- The column `from_dataframe` builds from `emailConfigRow`. -/
def emailColumn : ColumnSchema := ⟨"Email", .str 10, 1/4, none⟩

/-- The schema `from_dataframe` builds from `c6Config`. -/
def c6Schema : TableSchema := ⟨some [ageColumn, emailColumn]⟩

/-- **C6**: the round-trip configuration, through `from_dataframe` then
`generate(100)`, yields exactly 100 records with fields `Age` and `Email`,
and every `Age` cell (the first of each record) is a non-null integer in
`[18, 65]`, for every sequence of draws. -/
theorem c6_roundtrip (q : Nat → Nat → ℚ) (e : Nat → Nat → Entropy) :
    TableSchema.from_dataframe c6Config = .ok c6Schema ∧
    ∃ rows, c6Schema.generate 100 q e = .ok (["Age", "Email"], rows) ∧
      rows.length = 100 ∧
      ∀ row ∈ rows, row.length = 2 ∧
        ∃ v : ℤ, row.head? = some (some (.int v)) ∧ 18 ≤ v ∧ v ≤ 65 := by
  refine ⟨by rfl,
    (List.range 100).map (fun i => generateRow [ageColumn, emailColumn] (q i) (e i)),
    by rfl, by simp, ?_⟩
  intro row hrow
  simp only [List.mem_map, List.mem_range] at hrow
  obtain ⟨i, -, rfl⟩ := hrow
  constructor
  · rfl
  · have hcond : ¬(q i 0 > ageColumn.completeness ∧ ageColumn.completeness < 1) := by
      simp [ageColumn]
    refine ⟨18 + ((e i 0).nat 0 % 48 : ℕ), ?_, by omega, ?_⟩
    · show some (ageColumn.generate (q i 0) (e i 0)) =
        some (some (Value.int (18 + ((e i 0).nat 0 % 48 : ℕ))))
      rw [ColumnSchema.generate, if_neg hcond]
      rfl
    · have h48 : (e i 0).nat 0 % 48 < 48 := Nat.mod_lt _ (by norm_num)
      omega

/-- A constant all-zero draw sequence. -/
def zeroDraws : Nat → Nat → ℚ := fun _ _ => 0

/-- A constant all-zero entropy table. -/
def zeroEntropyTable : Nat → Nat → Entropy := fun _ _ => zeroEntropy

/-- **C6** witness: the round trip evaluated on the all-zero draw
sequences. -/
theorem c6_roundtrip_witness :
    ∃ rows, c6Schema.generate 100 zeroDraws zeroEntropyTable =
      .ok (["Age", "Email"], rows) ∧ rows.length = 100 :=
  ((c6_roundtrip zeroDraws zeroEntropyTable).2).imp
    (fun _ h => ⟨h.1, h.2.1⟩)

/-- A configuration row asking for a Category column over the two-label
domain `["USA", "Canada"]`. -/
def countryConfigRow : ConfigRow :=
  ⟨"Country", some "category", none, some ["USA", "Canada"], none, none, none⟩

/-- A configuration row asking for a Category column over the one-label
domain `["USA"]` — small enough for the cell normalisation's array truth
test to pass. -/
def countrySingletonRow : ConfigRow :=
  ⟨"Country", some "category", none, some ["USA"], none, none, none⟩

/-- **C7** (code bug): a configured category domain is never honoured.
With a multi-label domain, `from_dataframe` already crashes normalising the
cell (`pd.notna` yields a 2-element array whose truth test raises
`ValueError`).  With a singleton domain the normalisation passes, but
`from_dataframe` hands the labels over as the kwarg `domain` while
`CategoryType.__init__`'s parameter is named `categories`, so the
reflective filter silently drops them and the default `["A", "B", "C"]` is
stored: the generated values come from `{"A", "B", "C"}`, never from the
configured domain. -/
theorem c7_domain_dropped :
    TableSchema.from_dataframe [countryConfigRow] =
      .error "ValueError: The truth value of an array with more than one element is ambiguous. Use a.any() or a.all()" ∧
    TableSchema.from_dataframe [countrySingletonRow] =
      .ok ⟨some [⟨"Country", .category ["A", "B", "C"], 1, none⟩]⟩ ∧
    (⟨"Country", .category ["A", "B", "C"], 1, none⟩ : ColumnSchema).generate
      0 zeroEntropy = some (.str "A") ∧
    (["USA"] : List String).contains "A" = false :=
  ⟨by rfl, by rfl, by rfl, by decide⟩

/-- **C8** (counterexample): the claim quantifies over *every* TableSchema,
but on the default-constructed schema (column list `None`) `select_columns`
raises a `TypeError` instead of returning a new TableSchema. -/
theorem c8_counterexample :
    (TableSchema.mk none).select_columns ["Age"] =
      .error "TypeError: 'NoneType' object is not iterable" := rfl

/-- **C8** (amended): for every TableSchema whose column list is present,
`select_columns` returns a new TableSchema holding exactly the receiver's
columns whose names are in the given set, in the receiver's relative order
(a sublist); the receiver itself is not mutated — the operation is modelled
as a pure function that returns only the fresh schema and no updated
receiver. -/
theorem c8_select_columns (cols : List ColumnSchema) (names : List String) :
    (TableSchema.mk (some cols)).select_columns names =
      .ok ⟨some (cols.filter (fun c => names.contains c.name))⟩ ∧
    (cols.filter (fun c => names.contains c.name)).Sublist cols ∧
    (∀ c, c ∈ cols.filter (fun c => names.contains c.name) ↔
      c ∈ cols ∧ names.contains c.name) := by
  refine ⟨rfl, List.filter_sublist cols, fun c => ?_⟩
  simp [List.mem_filter]

/-- **C9** (counterexample): the claim says no constructed ColumnSchema
holds a completeness outside `[0, 1]`, but `ColumnSchema.__init__` performs
no range check: `completeness = 1.5` is stored as given. -/
theorem c9_counterexample :
    ColumnSchema.init "x" .absent (some (3/2)) none {} =
      .ok ⟨"x", .str 10, 3/2, none⟩ ∧ (1 : ℚ) < 3/2 :=
  ⟨by rfl, by norm_num⟩

/-- **C9** (amended): a missing or NaN completeness input is normalised to
`1.0` at construction, and whenever the supplied completeness lies in
`[0, 1]` the constructed column's completeness lies in `[0, 1]` — but the
range is not validated, so an out-of-range input is stored unchanged. -/
theorem c9_completeness_normalization (name : String) (dtArg : DatatypeArg)
    (gr : Option (Entropy → Value)) (kw : Kwargs) :
    (∀ c, ColumnSchema.init name dtArg none gr kw = .ok c →
      c.completeness = 1) ∧
    (∀ q c, 0 ≤ q → q ≤ 1 →
      ColumnSchema.init name dtArg (some q) gr kw = .ok c →
      0 ≤ c.completeness ∧ c.completeness ≤ 1) := by
  have key : ∀ (compl : Option ℚ) c,
      ColumnSchema.init name dtArg compl gr kw = .ok c →
      c.completeness = compl.getD 1 := by
    intro compl c h
    unfold ColumnSchema.init at h
    cases hres : (match dtArg with
      | .absent => stringInit (some 10)
      | .tag s => buildDatatype (lowerString s) kw
      | .dt d => Except.ok d) with
    | error msg => rw [hres] at h; cases h
    | ok dt =>
        rw [hres] at h
        cases h
        rfl
  constructor
  · intro c h
    simpa using key none c h
  · intro q c hq0 hq1 h
    have := key (some q) c h
    simp only [Option.getD] at this
    exact ⟨this ▸ hq0, this ▸ hq1⟩

/-- The column built by the C9 witness instantiation. -/
def c9Column : ColumnSchema := ⟨"x", .str 10, 1/2, none⟩

/-- **C9** witness: the amended theorem applied at the in-range
completeness `1/2`. -/
theorem c9_completeness_normalization_witness :
    0 ≤ c9Column.completeness ∧ c9Column.completeness ≤ 1 :=
  (c9_completeness_normalization "x" .absent none {}).2 (1/2) c9Column
    (by norm_num) (by norm_num) (by rfl)

/-- **C10**: `select_columns` on a TableSchema whose column list was never
initialised raises for every list of names: the dead `cols = []` branch is
immediately shadowed by the comprehension, which iterates the absent
(`None`) list and raises `TypeError` before anything is returned. -/
theorem c10_select_on_absent_columns (names : List String) :
    (TableSchema.mk none).select_columns names =
      .error "TypeError: 'NoneType' object is not iterable" := rfl

end DataFaker
